import Mathlib

/-!
Verification of the FMix training script `trainer.py`.

The script is a straight-line module body: it parses command-line
arguments, builds the dataset and data loaders, builds the model and
optimizer, assembles a callback list, constructs a torchbearer `Trial`,
runs training and finally evaluates on the test data.  We embed the
argument namespace, the msda mode dictionary, the callback list and the
execution trace of the module body as Lean definitions, translated
directly from the source, and prove the specification claims about them.

Float-typed command-line arguments (`--lr`, `--alpha`, ...) are modelled
as exact rationals: the script never performs arithmetic on them, it
only passes them through to library constructors, so `Rat` is a faithful
carrier of the parsed values.
-/

namespace Trainer

/-- The six admissible values of `--msda-mode` (the argparse `choices`
list at lines 44-45 of `trainer.py`). -/
inductive MsdaMode where
  | fmix
  | mixup
  | cutmix
  | alt_mixup_fmix
  | alt_mixup_cutmix
  | alt_fmix_cutmix
deriving DecidableEq, Repr

/-- Sample-mixing augmentation objects, as constructed by the script:
`FMix`, `RMixup` and `CutMix` are imported classes instantiated with the
arguments shown, `MSDAAlternator` pairs two already-built objects. -/
inductive Msda where
  | FMix (decay_power : Rat) (alpha : Rat) (size : List Nat)
      (max_soft : Rat) (reformulate : Bool)
  | RMixup (alpha : Rat) (reformulate : Bool)
  | CutMix (alpha : Rat) (classes : Nat) (target_mode : Bool)
  | MSDAAlternator (a : Msda) (b : Msda)
deriving DecidableEq, Repr

/-- The parsed argument namespace (`args = parser.parse_args()`,
line 67), one field per `add_argument` call.  `msda_mode` defaults to
`None`, hence `Option MsdaMode`. -/
structure Args where
  dataset : String
  dataset_path : Option String
  split_fraction : Rat
  model : String
  epoch : Int
  train_steps : Option Int
  lr : Rat
  lr_warmup : Bool
  batch_size : Int
  auto_augment : Bool
  augment : Bool
  parallel : Bool
  reload : Bool
  verbose : Int
  seed : Int
  random_erase : Bool
  cutout : Bool
  msda_mode : Option MsdaMode
  alpha : Rat
  f_decay : Rat
  t_alpha : Rat
  cutout_l : Int
  reformulate : Bool
  schedule : List Int
  cosine_scheduler : Bool
  fold_path : String
  n_folds : Int
  fold : String
  run_id : Int
  log_dir : String
  model_file : String
deriving DecidableEq, Repr

/-- The `modes` dictionary (lines 107-116): the three base augmentation
objects are built first, then the three alternators are added, each
pairing two of the already-constructed base objects. -/
def modes (args : Args) (classes : Nat) (size : List Nat) : MsdaMode → Msda :=
  let fmix := Msda.FMix args.f_decay args.alpha size 0 args.reformulate
  let mixup := Msda.RMixup args.alpha args.reformulate
  let cutmix := Msda.CutMix args.alpha classes true
  fun m =>
    match m with
    | .fmix => fmix
    | .mixup => mixup
    | .cutmix => cutmix
    | .alt_mixup_fmix => Msda.MSDAAlternator fmix mixup
    | .alt_mixup_cutmix => Msda.MSDAAlternator mixup cutmix
    | .alt_fmix_cutmix => Msda.MSDAAlternator fmix cutmix

/-- Callback objects as the script constructs them (lines 95-124). -/
inductive Callback where
  | TensorBoard (write_graph : Bool) (comment : String) (log_dir : String)
  | TensorBoardText (write_epoch_metrics : Bool) (comment : String) (log_dir : String)
  | write_params
  | MostRecent (filepath : String)
  | msda (m : Msda)
  | Cutout (n_holes : Nat) (length : Int)
  | RandomErase (n_holes : Nat) (length : Int)
  | MultiStepLR (milestones : List Int)
  | CosineAnnealingLR (t_max : Int) (eta_min : Rat)
  | WarmupLR (init_lr : Rat) (end_lr : Rat)
deriving DecidableEq, Repr

/-- The callback list `cb` (lines 118-124).  The initial list holds the
two tensorboard callbacks, `write_params` and `MostRecent`; each
subsequent line conditionally appends one callback at the end, except
line 123 whose conditional expression appends exactly one of the two
schedulers. -/
def cb (args : Args) (classes : Nat) (size : List Nat) (current_time : String) :
    List Callback :=
  [Callback.TensorBoard false current_time args.log_dir,
   Callback.TensorBoardText false current_time args.log_dir,
   Callback.write_params,
   Callback.MostRecent args.model_file]
  ++ (match args.msda_mode with
      | some m => [Callback.msda (modes args classes size m)]
      | none => [])
  ++ (if args.cutout then [Callback.Cutout 1 args.cutout_l] else [])
  ++ (if args.random_erase then [Callback.RandomErase 1 args.cutout_l] else [])
  ++ (if ¬ args.cosine_scheduler then [Callback.MultiStepLR args.schedule]
      else [Callback.CosineAnnealingLR args.epoch 0])
  ++ (if args.lr_warmup then [Callback.WarmupLR (1/10) args.lr] else [])

/-- The training criterion (line 128): `modes['fmix'].loss()` whenever
`--msda-mode` was given, otherwise `nn.CrossEntropyLoss()`. -/
inductive Criterion where
  | msda_loss (m : Msda)
  | CrossEntropyLoss
deriving DecidableEq, Repr

/-- Translation of line 128 of `trainer.py`. -/
def criterion (args : Args) (classes : Nat) (size : List Nat) : Criterion :=
  if args.msda_mode.isSome then Criterion.msda_loss (modes args classes size .fmix)
  else Criterion.CrossEntropyLoss

/-- Data keys a torchbearer `Trial.evaluate` call can target. -/
inductive DataKey where
  | train_data
  | validation_data
  | test_data
deriving DecidableEq, Repr

/-- Observable events of the module body, in source order: each
constructor records the arguments the script passes at that point. -/
inductive Ev where
  | parse_args
  | manual_seed (seed : Int)
  | prepare_data (dataset : String)
  | build_loaders (batch_size : Int)
  | build_model (model : String)
  | build_optimizer (lr : Rat)
  | setup_callbacks (cbs : List Callback)
  | build_trial
  | reload_state (file : String)
  | replay
  | run (epochs : Int) (verbose : Int)
  | evaluate (data_key : DataKey)
deriving DecidableEq, Repr

/-- The execution trace of the module body (lines 67-138): parse the
arguments, seed only when `args.seed != 0`, prepare the data and the
three loaders, build the model and optimizer, set up the callbacks,
build the trial, reload and replay only when `args.reload`, then run
and finally evaluate on the test data. -/
def scriptTrace (args : Args) (classes : Nat) (size : List Nat)
    (current_time : String) : List Ev :=
  [Ev.parse_args]
  ++ (if args.seed ≠ 0 then [Ev.manual_seed args.seed] else [])
  ++ [Ev.prepare_data args.dataset,
      Ev.build_loaders args.batch_size,
      Ev.build_model args.model,
      Ev.build_optimizer args.lr,
      Ev.setup_callbacks (cb args classes size current_time),
      Ev.build_trial]
  ++ (if args.reload then [Ev.reload_state args.model_file, Ev.replay] else [])
  ++ [Ev.run args.epoch args.verbose, Ev.evaluate DataKey.test_data]

/-- Stage number of an event: events of a later stage of the script
never execute before an earlier stage has completed. -/
def stage : Ev → Nat
  | .parse_args => 0
  | .manual_seed _ => 1
  | .prepare_data _ => 2
  | .build_loaders _ => 2
  | .build_model _ => 3
  | .build_optimizer _ => 3
  | .setup_callbacks _ => 4
  | .build_trial => 5
  | .reload_state _ => 6
  | .replay => 6
  | .run _ _ => 7
  | .evaluate _ => 8

/-- Boolean recogniser for `run` events. -/
def isRun : Ev → Bool
  | .run _ _ => true
  | _ => false

/-- Boolean recogniser for `evaluate` events. -/
def isEval : Ev → Bool
  | .evaluate _ => true
  | _ => false

/-- Boolean recogniser for `manual_seed` events. -/
def isSeed : Ev → Bool
  | .manual_seed _ => true
  | _ => false

/-- Boolean recogniser for the sample-mixing augmentation callback. -/
def isMsdaCb : Callback → Bool
  | .msda _ => true
  | _ => false

/-- Boolean recogniser for the two learning-rate scheduler callbacks. -/
def isSchedulerCb : Callback → Bool
  | .MultiStepLR _ => true
  | .CosineAnnealingLR _ _ => true
  | _ => false

/-- Boolean recogniser for the warmup callback. -/
def isWarmupCb : Callback → Bool
  | .WarmupLR _ _ => true
  | _ => false

/-- Python string representation of a list of integers, as produced by
`str(params['schedule'])` when the value is still a list. -/
def pyIntListStr (l : List Int) : String :=
  "[" ++ String.intercalate ", " (l.map (fun i => toString i)) ++ "]"

/-- Runtime value of the `schedule` entry of the argument namespace: the
parser stores a list of integers, `write_params` overwrites it with a
string. -/
inductive PySched where
  | ints (l : List Int)
  | str (s : String)
deriving DecidableEq, Repr

/-- Python `str` applied to the current `schedule` value: renders a list,
and is the identity on a string. -/
def pySchedStr : PySched → String
  | .ints l => pyIntListStr l
  | .str s => s

/-- The argument namespace as a runtime dictionary: identical to `Args`
except that the `schedule` entry carries its runtime type, which
`write_params` changes from list-of-int to string. -/
structure ArgsNS where
  dataset : String
  dataset_path : Option String
  split_fraction : Rat
  model : String
  epoch : Int
  train_steps : Option Int
  lr : Rat
  lr_warmup : Bool
  batch_size : Int
  auto_augment : Bool
  augment : Bool
  parallel : Bool
  reload : Bool
  verbose : Int
  seed : Int
  random_erase : Bool
  cutout : Bool
  msda_mode : Option MsdaMode
  alpha : Rat
  f_decay : Rat
  t_alpha : Rat
  cutout_l : Int
  reformulate : Bool
  schedule : PySched
  cosine_scheduler : Bool
  fold_path : String
  n_folds : Int
  fold : String
  run_id : Int
  log_dir : String
  model_file : String
deriving DecidableEq, Repr

/-- The namespace as it stands right after `parser.parse_args()`: every
entry equals the parsed argument, `schedule` still a list of integers. -/
def initNS (args : Args) : ArgsNS :=
  { dataset := args.dataset, dataset_path := args.dataset_path,
    split_fraction := args.split_fraction, model := args.model,
    epoch := args.epoch, train_steps := args.train_steps, lr := args.lr,
    lr_warmup := args.lr_warmup, batch_size := args.batch_size,
    auto_augment := args.auto_augment, augment := args.augment,
    parallel := args.parallel, reload := args.reload,
    verbose := args.verbose, seed := args.seed,
    random_erase := args.random_erase, cutout := args.cutout,
    msda_mode := args.msda_mode, alpha := args.alpha,
    f_decay := args.f_decay, t_alpha := args.t_alpha,
    cutout_l := args.cutout_l, reformulate := args.reformulate,
    schedule := PySched.ints args.schedule,
    cosine_scheduler := args.cosine_scheduler, fold_path := args.fold_path,
    n_folds := args.n_folds, fold := args.fold, run_id := args.run_id,
    log_dir := args.log_dir, model_file := args.model_file }

/-- The on-start callback `write_params` (lines 99-104) acting on the
argument namespace: `vars(args)` is the namespace dictionary itself, so
the assignment `params['schedule'] = str(params['schedule'])` overwrites
the namespace's own `schedule` entry with its string representation; the
remaining statements of the callback only read `params`. -/
def write_params (ns : ArgsNS) : ArgsNS :=
  { ns with schedule := PySched.str (pySchedStr ns.schedule) }

/-- C3: the sample-mixing callback is in the callback list exactly when
`--msda-mode` is given, and then it is exactly the object
`modes[args.msda_mode]`. -/
theorem msda_callback_iff_mode (args : Args) (classes : Nat) (size : List Nat)
    (t : String) :
    (cb args classes size t).filter isMsdaCb =
      match args.msda_mode with
      | some m => [Callback.msda (modes args classes size m)]
      | none => [] := by
  cases h : args.msda_mode <;>
    simp only [cb, h, List.filter_append] <;>
    split_ifs <;> simp [isMsdaCb]

/-- C4: exactly one learning-rate scheduler callback is appended: a
`CosineAnnealingLR` over `args.epoch` epochs with `eta_min` zero when
`--cosine-scheduler` is true, and otherwise a `MultiStepLR` at the
epochs of `--schedule`, never both and never neither. -/
theorem scheduler_exactly_one (args : Args) (classes : Nat) (size : List Nat)
    (t : String) :
    (cb args classes size t).filter isSchedulerCb =
      (if args.cosine_scheduler then [Callback.CosineAnnealingLR args.epoch 0]
       else [Callback.MultiStepLR args.schedule]) ∧
    ((cb args classes size t).filter isSchedulerCb).length = 1 := by
  constructor
  · cases h : args.msda_mode <;>
      simp only [cb, h, List.filter_append] <;>
      split_ifs <;> simp_all [isSchedulerCb]
  · cases h : args.msda_mode <;>
      simp only [cb, h, List.filter_append] <;>
      split_ifs <;> simp_all [isSchedulerCb]

/-- C5: a `MostRecent` checkpointing callback targeting
`args.model_file` is in the callback list for every argument
configuration. -/
theorem most_recent_always (args : Args) (classes : Nat) (size : List Nat)
    (t : String) :
    Callback.MostRecent args.model_file ∈ cb args classes size t := by
  simp [cb]

/-- C6: the warmup callback `WarmupLR(0.1, args.lr)` is in the callback
list exactly when `--lr-warmup` is true, and it is the imported
constructor applied to those two arguments. -/
theorem warmup_iff_flag (args : Args) (classes : Nat) (size : List Nat)
    (t : String) :
    (cb args classes size t).filter isWarmupCb =
      if args.lr_warmup then [Callback.WarmupLR (1/10) args.lr] else [] := by
  cases h : args.msda_mode <;>
    simp only [cb, h, List.filter_append] <;>
    split_ifs <;> simp_all [isWarmupCb]

/-- C7: the script only instantiates the imported augmentation classes
with pass-through parameters: `FMix` gets `decay_power=args.f_decay`,
`alpha=args.alpha`, the dataset size, `max_soft=0` and
`reformulate=args.reformulate`; `RMixup` gets `args.alpha` and
`reformulate=args.reformulate`; `CutMix` gets `args.alpha`, the class
count and `True`; each alternating mode is an `MSDAAlternator` pairing
exactly the two already-constructed base objects named in its key. -/
theorem modes_wiring (args : Args) (classes : Nat) (size : List Nat) :
    modes args classes size .fmix
      = Msda.FMix args.f_decay args.alpha size 0 args.reformulate ∧
    modes args classes size .mixup = Msda.RMixup args.alpha args.reformulate ∧
    modes args classes size .cutmix = Msda.CutMix args.alpha classes true ∧
    modes args classes size .alt_mixup_fmix
      = Msda.MSDAAlternator (modes args classes size .fmix)
          (modes args classes size .mixup) ∧
    modes args classes size .alt_mixup_cutmix
      = Msda.MSDAAlternator (modes args classes size .mixup)
          (modes args classes size .cutmix) ∧
    modes args classes size .alt_fmix_cutmix
      = Msda.MSDAAlternator (modes args classes size .fmix)
          (modes args classes size .cutmix) :=
  ⟨rfl, rfl, rfl, rfl, rfl, rfl⟩

/-- C8: whenever `--msda-mode` is given the criterion is
`modes['fmix'].loss()`, regardless of which mode was selected, and it is
`nn.CrossEntropyLoss` exactly when `--msda-mode` is absent. -/
theorem criterion_always_fmix_loss (args : Args) (classes : Nat)
    (size : List Nat) :
    criterion args classes size =
      match args.msda_mode with
      | some _ => Criterion.msda_loss (modes args classes size .fmix)
      | none => Criterion.CrossEntropyLoss := by
  cases h : args.msda_mode <;> simp [criterion, h]

/-- C1: for every argument configuration the module body performs its
stages in the fixed order — parse the arguments, build the dataset and
loaders, build the model and optimizer, build the callback list, call
run: the stage numbers along the trace never decrease, and each stage's
event is present, so no later stage (in particular `run`) begins before
every earlier stage has completed. -/
theorem stages_in_order (args : Args) (classes : Nat) (size : List Nat)
    (t : String) :
    List.Chain' (fun a b => stage a ≤ stage b)
      (scriptTrace args classes size t) ∧
    Ev.parse_args ∈ scriptTrace args classes size t ∧
    Ev.prepare_data args.dataset ∈ scriptTrace args classes size t ∧
    Ev.build_loaders args.batch_size ∈ scriptTrace args classes size t ∧
    Ev.build_model args.model ∈ scriptTrace args classes size t ∧
    Ev.build_optimizer args.lr ∈ scriptTrace args classes size t ∧
    Ev.setup_callbacks (cb args classes size t) ∈ scriptTrace args classes size t ∧
    Ev.run args.epoch args.verbose ∈ scriptTrace args classes size t := by
  by_cases hs : args.seed = 0 <;> by_cases hr : args.reload <;>
    simp [scriptTrace, hs, hr, stage, List.chain'_cons]

/-- C2: the script calls `trial.run` with `args.epoch` epochs exactly
once and `trial.evaluate` on the test data exactly once, and the
evaluation follows the training: the trace ends with the `run` event
followed by the `evaluate` event on `TEST_DATA`. -/
theorem run_then_evaluate (args : Args) (classes : Nat) (size : List Nat)
    (t : String) :
    (scriptTrace args classes size t).countP isRun = 1 ∧
    (scriptTrace args classes size t).countP isEval = 1 ∧
    [Ev.run args.epoch args.verbose, Ev.evaluate DataKey.test_data]
      <:+ scriptTrace args classes size t := by
  refine ⟨?_, ?_, ?_⟩
  · by_cases hs : args.seed = 0 <;> by_cases hr : args.reload <;>
      simp [scriptTrace, hs, hr, isRun]
  · by_cases hs : args.seed = 0 <;> by_cases hr : args.reload <;>
      simp [scriptTrace, hs, hr, isEval]
  · exact List.suffix_append _ _

/-- C9: the trace contains a `manual_seed` event exactly when
`args.seed` is nonzero; with the default seed 0 the script performs no
seeding at all. -/
theorem manual_seed_iff_nonzero (args : Args) (classes : Nat)
    (size : List Nat) (t : String) :
    (scriptTrace args classes size t).filter isSeed =
      (if args.seed = 0 then [] else [Ev.manual_seed args.seed]) := by
  by_cases hs : args.seed = 0 <;> by_cases hr : args.reload <;>
    simp [scriptTrace, hs, hr, isSeed]

/-- C10: running `write_params` on the parsed namespace turns the
`schedule` entry into the string representation of the schedule list —
no longer the original list of integers — and changes no other field:
restoring `schedule` recovers the namespace unchanged. -/
theorem write_params_mutates_schedule (args : Args) :
    (write_params (initNS args)).schedule
      = PySched.str (pyIntListStr args.schedule) ∧
    (write_params (initNS args)).schedule ≠ PySched.ints args.schedule ∧
    { write_params (initNS args) with schedule := (initNS args).schedule }
      = initNS args := by
  refine ⟨rfl, by simp [write_params, initNS, pySchedStr], rfl⟩

end Trainer
